import Mathlib

/-!
Shallow embedding of the email notification/delivery pipeline of the job-portal
repository, centred on `backend/services/emailQueueProcessor.js`,
`backend/models/notificationSchema.js`, the email service (`EmailService`)
and the admin email-queue controller (`retryFailedEmail` / `cancelEmail`).

Conventions of the embedding:
* times are natural numbers of milliseconds since the epoch;
* a JavaScript `Date.getHours()` call is modelled as
  `(ms / 3600000 + serverOffset) % 24` where `serverOffset` is the server
  local-time offset of the machine in hours (the code never consults any other
  timezone when computing hours);
* Mongoose documents become structures; `undefined` fields become `Option`;
* a thrown exception from the transport is modelled by a flag in the
  processing environment, carrying the error message;
* MongoDB sorts `String` fields bytewise, which on the ASCII enum values
  involved coincides with the lexicographic order on Lean `String` values.
-/

namespace JobPortal

/-- `status` enum of `emailQueueSchema` (notificationSchema.js lines 175-180). -/
inductive EmailStatus
  | pending
  | processing
  | sent
  | failed
  | cancelled
deriving DecidableEq, Repr

/-- `priority` enum of `emailQueueSchema` (notificationSchema.js lines 170-174).
In MongoDB this is stored as a string; `str` gives the stored value. -/
inductive EmailPriority
  | low
  | medium
  | high
deriving DecidableEq, Repr

/-- The string value stored in MongoDB for each priority. -/
def EmailPriority.str : EmailPriority → String
  | .low => "low"
  | .medium => "medium"
  | .high => "high"

/-- `emailType` enum of `emailQueueSchema` (notificationSchema.js lines 147-155). -/
inductive EmailType
  | notification_immediate
  | daily_digest
  | weekly_digest
  | welcome
  | password_reset
  | account_verification
  | job_alert
  | application_confirmation
  | interview_reminder
deriving DecidableEq, Repr

/-- A document of the `EmailQueue` collection (emailQueueSchema). -/
structure EmailJob where
  id : Nat
  recipient : Nat
  emailType : EmailType
  subject : String
  htmlContent : String
  priority : EmailPriority
  status : EmailStatus
  scheduledFor : Nat
  attempts : Nat
  lastAttempt : Option Nat
  sentAt : Option Nat
  failureReason : Option String
  createdAt : Nat
deriving DecidableEq, Repr

/-- `preferences.email` block of `notificationPreferencesSchema`
(notificationSchema.js lines 100-110). -/
structure EmailPrefs where
  enabled : Bool
  jobMatches : Bool
  applicationUpdates : Bool
  connectionRequests : Bool
  endorsements : Bool
  recommendations : Bool
  assessmentInvitations : Bool
  weeklyDigest : Bool
deriving DecidableEq, Repr

/-- `quietHours` block of `notificationPreferencesSchema`
(notificationSchema.js lines 128-133).  `timezone` is stored in the schema as
an IANA name string; here it is abstracted to its hour offset, which is enough
to express that the processor never reads it. -/
structure QuietHours where
  enabled : Bool
  startTime : String
  endTime : String
  timezone : Nat
deriving DecidableEq, Repr

/-- A document of the `NotificationPreferences` collection. -/
structure NotificationPreferences where
  email : EmailPrefs
  quietHours : QuietHours
deriving DecidableEq, Repr

/-- Schema defaults for `preferences.email` (notificationSchema.js lines
100-110): everything opted in. -/
def defaultEmailPrefs : EmailPrefs :=
  { enabled := true, jobMatches := true, applicationUpdates := true
    connectionRequests := true, endorsements := true, recommendations := true
    assessmentInvitations := true, weeklyDigest := true }

/-- Schema defaults for `quietHours` (notificationSchema.js lines 128-133):
disabled, 22:00-08:00, UTC. -/
def defaultQuietHours : QuietHours :=
  { enabled := false, startTime := "22:00", endTime := "08:00", timezone := 0 }

/-- A `NotificationPreferences` document built entirely from schema defaults. -/
def defaultNotificationPreferences : NotificationPreferences :=
  { email := defaultEmailPrefs, quietHours := defaultQuietHours }

/-- Leading decimal digits of a character list, as `parseInt` reads them:
`none` (NaN) when the input does not start with a digit. -/
def leadingNat (acc : Option Nat) : List Char → Option Nat
  | [] => acc
  | c :: rest =>
    if c.isDigit then leadingNat (some ((acc.getD 0) * 10 + (c.toNat - 48))) rest
    else acc

/-- `parseInt(s.split(":")[0])` as used on `startTime` / `endTime`
(emailQueueProcessor.js lines 172-173): the digits before the first colon.
The schema stores these fields as `"HH:MM"`; a NaN result (no leading digit)
is collapsed to 0, a case the schema format never produces. -/
def parseHour (s : String) : Nat :=
  (leadingNat none (s.data.takeWhile (fun c => c ≠ ':'))).getD 0

/-- `new Date(ms).getHours()` on the server: the hour of the day in the server
local timezone of the machine, whose offset from UTC is `serverOffset` hours. -/
def getHours (ms : Nat) (serverOffset : Nat) : Nat :=
  (ms / 3600000 + serverOffset) % 24

/-- The per-emailType preference key lookup table `typePreferenceMap`
(emailQueueProcessor.js lines 154-161); `none` for types absent from the map. -/
inductive PrefKey
  | jobMatches
  | applicationUpdates
  | weeklyDigest
deriving DecidableEq, Repr

def typePreferenceMap : EmailType → Option PrefKey
  | .job_alert => some .jobMatches
  | .application_confirmation => some .applicationUpdates
  | .notification_immediate => some .applicationUpdates
  | .interview_reminder => some .applicationUpdates
  | .daily_digest => some .weeklyDigest
  | .weekly_digest => some .weeklyDigest
  | _ => none

/-- `emailPrefs[prefKey]` (emailQueueProcessor.js line 164). -/
def EmailPrefs.get (p : EmailPrefs) : PrefKey → Bool
  | .jobMatches => p.jobMatches
  | .applicationUpdates => p.applicationUpdates
  | .weeklyDigest => p.weeklyDigest

/-- The quiet-hours membership test of `shouldSkipEmail`
(emailQueueProcessor.js lines 175-185): wrap-around window when
`startHour > endHour`, same-day window otherwise. -/
def quietHourMember (startHour endHour currentHour : Nat) : Bool :=
  if startHour > endHour then
    decide (currentHour ≥ startHour) || decide (currentHour ≤ endHour)
  else
    decide (currentHour ≥ startHour) && decide (currentHour ≤ endHour)

/-- `shouldSkipEmail(emailJob, preferences)` (emailQueueProcessor.js lines
145-189).  `now` and `serverOffset` feed the `new Date().getHours()` call on
line 171; the preferences document is `none` when
`NotificationPreferences.findOne` found nothing. -/
def shouldSkipEmail (emailJob : EmailJob)
    (preferences : Option NotificationPreferences)
    (now serverOffset : Nat) : Bool :=
  match preferences with
  | none => true
  | some prefs =>
    if !prefs.email.enabled then
      true
    else
      let emailPrefs := prefs.email
      let typeOptOut :=
        match typePreferenceMap emailJob.emailType with
        | some prefKey => emailPrefs.get prefKey == false
        | none => false
      if typeOptOut then
        true
      else if prefs.quietHours.enabled then
        let currentHour := getHours now serverOffset
        let startHour := parseHour prefs.quietHours.startTime
        let endHour := parseHour prefs.quietHours.endTime
        quietHourMember startHour endHour currentHour
      else
        false

/-- Constructor constants of `EmailQueueProcessor` (emailQueueProcessor.js
lines 7-12). -/
def batchSize : Nat := 10

def retryAttempts : Nat := 3

def retryDelay : Nat := 5 * 60 * 1000

/-- The environment one `processEmailJob` invocation runs in: the wall clock,
the server timezone offset, the preferences document of the recipient (result of
`NotificationPreferences.findOne`), and the outcome of the
`emailService.sendEmail` call — `none` when it resolves, `some msg` when it
rejects with error message `msg`. -/
structure ProcEnv where
  now : Nat
  serverOffset : Nat
  preferences : Option NotificationPreferences
  sendError : Option String
deriving Repr

/-- `processEmailJob(emailJob)` (emailQueueProcessor.js lines 83-142) as a
function from the job document to its final saved state: mark processing and
increment `attempts`; cancel if `shouldSkipEmail`; otherwise send, marking
`sent` on success, and on a thrown transport error mark `failed` once
`attempts >= retryAttempts` and otherwise return the job to `pending`
rescheduled `retryDelay` later. -/
def processEmailJob (env : ProcEnv) (emailJob : EmailJob) : EmailJob :=
  let j := { emailJob with
               status := .processing
               attempts := emailJob.attempts + 1
               lastAttempt := some env.now }
  if shouldSkipEmail j env.preferences env.now env.serverOffset then
    { j with status := .cancelled
             failureReason := some "User has opted out of this email type" }
  else
    match env.sendError with
    | none =>
      { j with status := .sent, sentAt := some env.now }
    | some msg =>
      if j.attempts ≥ retryAttempts then
        { j with status := .failed, failureReason := some msg }
      else
        { j with status := .pending, scheduledFor := env.now + retryDelay }

/-- The `EmailQueue.find` predicate of `processQueue` (emailQueueProcessor.js
lines 51-55): `status == pending`, `scheduledFor <= now`,
`attempts < retryAttempts`. -/
def dueFilter (now : Nat) (j : EmailJob) : Bool :=
  j.status == .pending && decide (j.scheduledFor ≤ now)
    && decide (j.attempts < retryAttempts)

/-- Bytewise (codepoint-lexicographic) string comparison, which is how BSON
compares two string keys when MongoDB sorts on a string field. -/
def strLtChars : List Char → List Char → Bool
  | [], [] => false
  | [], _ :: _ => true
  | _ :: _, [] => false
  | a :: as, b :: bs =>
    if a.toNat < b.toNat then true
    else if b.toNat < a.toNat then false
    else strLtChars as bs

def mongoStrLt (a b : String) : Bool :=
  strLtChars a.data b.data

/-- The `.sort({ priority: -1, createdAt: 1 })` comparator (emailQueueProcessor.js
line 58).  `priority` is a MongoDB string field, so the descending key compares
the stored strings bytewise; ties fall through to ascending `createdAt`. -/
def queueOrder (a b : EmailJob) : Bool :=
  if a.priority.str == b.priority.str then
    decide (a.createdAt ≤ b.createdAt)
  else
    mongoStrLt b.priority.str a.priority.str

/-- Stable insertion of `x` into a list sorted by `le`: `x` goes in front of
the first element it compares `le` to. -/
def orderedInsertB (le : EmailJob → EmailJob → Bool) (x : EmailJob) :
    List EmailJob → List EmailJob
  | [] => [x]
  | y :: ys => if le x y then x :: y :: ys else y :: orderedInsertB le x ys

/-- Stable sort by `le` (insertion sort); models the MongoDB sort stage on the
sort keys of the queue query. -/
def sortJobs (le : EmailJob → EmailJob → Bool) : List EmailJob → List EmailJob
  | [] => []
  | x :: xs => orderedInsertB le x (sortJobs le xs)

/-- The batch selected by one `processQueue` tick (emailQueueProcessor.js
lines 51-58): filter the due jobs, sort by the sort keys of the query, apply
`limit(batchSize)`. -/
def selectBatch (now : Nat) (db : List EmailJob) : List EmailJob :=
  (sortJobs queueOrder (db.filter (dueFilter now))).take batchSize

/-- `retryFailedEmail` (admin controller): only `failed` jobs are reset —
`status = pending`, `attempts = 0`, `scheduledFor = now`, `failureReason`
cleared; any other status is rejected and the job is left unchanged. -/
def retryFailedEmail (now : Nat) (j : EmailJob) : EmailJob :=
  if j.status ≠ .failed then j
  else
    { j with status := .pending, attempts := 0, scheduledFor := now
             failureReason := none }

/-- `cancelEmail` (admin controller): only `pending` or `processing` jobs are
cancelled, with `failureReason = "Cancelled by admin"`. -/
def cancelEmail (j : EmailJob) : EmailJob :=
  if j.status = .pending ∨ j.status = .processing then
    { j with status := .cancelled, failureReason := some "Cancelled by admin" }
  else j

/-- One operation applied to a single queue document: a processor tick
evaluating it (which touches it only when the `processQueue` selection
predicate admits it), an admin retry, or an admin cancel. -/
inductive QueueOp
  | tick (env : ProcEnv)
  | adminRetry (now : Nat)
  | adminCancel
deriving Repr

def applyOp (j : EmailJob) : QueueOp → EmailJob
  | .tick env => if dueFilter env.now j then processEmailJob env j else j
  | .adminRetry now => retryFailedEmail now j
  | .adminCancel => cancelEmail j

def runOps (j : EmailJob) (ops : List QueueOp) : EmailJob :=
  ops.foldl applyOp j

/-- A freshly enqueued job, as every `EmailQueue.create` call site builds it:
`status`, `attempts`, `lastAttempt`, `sentAt`, `failureReason` all left to the
schema defaults (`pending`, `0`, unset, unset, unset). -/
def mkJob (id recipient : Nat) (emailType : EmailType) (subject html : String)
    (priority : EmailPriority) (scheduledFor createdAt : Nat) : EmailJob :=
  { id := id, recipient := recipient, emailType := emailType
    subject := subject, htmlContent := html, priority := priority
    status := .pending, scheduledFor := scheduledFor, attempts := 0
    lastAttempt := none, sentAt := none, failureReason := none
    createdAt := createdAt }

/-- A stored document of the `users` collection, as relevant here.  The User
schema (userSchema.js) declares no `notificationPreferences` path —
notification preferences live in their own collection, keyed by user — so a
stored user document carries nothing under that name; only the id matters to
the digest functions. -/
structure UserDoc where
  id : Nat
deriving DecidableEq, Repr

/-- The value a stored user document holds at the query path
`notificationPreferences.preferences.email.frequency`: the User schema has no
such path (and Mongoose strict mode strips non-schema fields on save), so the
lookup yields nothing for every document. -/
def userNotificationFrequency (_u : UserDoc) : Option String :=
  none

/-- The `.where('notificationPreferences.preferences.email.frequency').equals('daily')`
condition of the `generateDailyDigests` user query (emailQueueProcessor.js
lines 197-200), evaluated as MongoDB evaluates it: against the stored `users`
documents, before and independently of any `populate` (a `find` filter never
sees populated data). -/
def dailyDigestUserFilter (u : UserDoc) : Bool :=
  userNotificationFrequency u == some "daily"

/-- `createDailyDigestEmail(user)` (emailQueueProcessor.js lines 234-254):
unconditionally `EmailQueue.create` a `daily_digest` job for the user with
`priority: low`, `scheduledFor: now`; `html` stands for the digest template
rendered by `emailService.compileTemplate`.  The id of the new document is fresh. -/
def createDailyDigestEmail (now : Nat) (html : String) (userId : Nat)
    (db : List EmailJob) : List EmailJob :=
  db ++ [mkJob db.length userId .daily_digest "Your Daily JobPortal Digest"
           html .low now now]

/-- `generateDailyDigests()` (emailQueueProcessor.js lines 192-210): run the
user query and call `createDailyDigestEmail` for each returned user.  The
query filters the `users` collection on a path no User document carries, so it
returns no users (in Mongoose versions whose default `strictPopulate` makes
`populate` of the non-schema path throw instead, the surrounding catch
swallows the error before any job is created — the same net effect modelled
here).  There is also no check for an existing digest job. -/
def generateDailyDigests (now : Nat) (html : String) (users : List UserDoc)
    (db : List EmailJob) : List EmailJob :=
  (users.filter dailyDigestUserFilter).foldl
    (fun acc u => createDailyDigestEmail now html u.id acc) db

/-- Number of daily-digest jobs in the queue addressed to `userId`. -/
def countDailyDigests (userId : Nat) (db : List EmailJob) : Nat :=
  (db.filter (fun j => j.emailType == .daily_digest && j.recipient == userId)).length

/-! ### The email service (`EmailService` in the unnamed service file) -/

/-- The argument object of `EmailService.sendEmail`; fields that the claims
never touch (`from`, `templateData`, `priority`, `sendAt`, `attachments`) are
omitted.  An absent field is `none`; JavaScript falsiness makes the empty
string behave like an absent `to` / `subject` / `text`. -/
structure SendEmailArgs where
  toAddr : String
  subject : String
  template : Option String
  html : Option String
  text : Option String
  templateId : Option String
deriving DecidableEq, Repr

/-- The `emailData` object handed to the provider transport
(`sendWithSendGrid` / `sendWithAWSSES` / `sendWithDevelopmentMode`). -/
structure EmailData where
  toAddr : String
  subject : String
  html : Option String
  text : Option String
deriving DecidableEq, Repr

/-- Tag-removal pass of `htmlToText` (`replace(/<[^>]*>/g, '')`); characters
from an opening angle bracket to the next closing one are dropped (an
unterminated trailing tag is also dropped, a closed-tag-only simplification
of the regex). -/
def stripTags (inTag : Bool) : List Char → List Char
  | [] => []
  | c :: cs =>
    if inTag then
      if c = '>' then stripTags false cs else stripTags true cs
    else
      if c = '<' then stripTags true cs else c :: stripTags false cs

/-- Whitespace-collapsing pass of `htmlToText` (`replace(/\s+/g, ' ')`):
every maximal whitespace run becomes a single space. -/
def collapseWs (prevWs : Bool) : List Char → List Char
  | [] => []
  | c :: cs =>
    if c.isWhitespace then
      if prevWs then collapseWs true cs else ' ' :: collapseWs true cs
    else c :: collapseWs false cs

/-- `EmailService.htmlToText(html)`: strip tags, collapse whitespace, trim. -/
def htmlToText (html : String) : String :=
  (String.mk (collapseWs false (stripTags false html.data))).trim

/-- The body of `EmailService.sendEmail` up to and including the construction
of `emailData`: validation, then template compilation with the fallback
subject/body on a template error.  `renderResult` is the outcome of
`compileTemplate`: `some rendered` when it returns, `none` when it throws. -/
def buildEmailData (renderResult : Option String) (args : SendEmailArgs) :
    Except String EmailData :=
  if args.toAddr = "" then
    .error "Recipient email is required"
  else if args.subject = "" ∧ args.template = none ∧ args.templateId = none then
    .error "Subject or template is required"
  else
    let htmlText : Option String × Option String :=
      match args.template with
      | none => (args.html, args.text)
      | some _ =>
        match renderResult with
        | some rendered =>
          (some rendered,
           if (args.text.getD "") = "" then some (htmlToText rendered)
           else args.text)
        | none =>
          (some ("<h1>" ++ args.subject ++ "</h1><p>Email content would be here.</p>"),
           some (args.subject ++ " - Email content would be here."))
    .ok { toAddr := args.toAddr, subject := args.subject
          html := htmlText.1, text := htmlText.2 }

/-- `EmailService.sendEmail`: build `emailData`, then invoke the configured
provider transport with it; `transportError` is `some msg` when that provider
call throws and `none` when it succeeds.  The result carries the `emailData`
the transport received. -/
def sendEmail (renderResult : Option String) (transportError : Option String)
    (args : SendEmailArgs) : Except String EmailData :=
  match buildEmailData renderResult args with
  | .error e => .error e
  | .ok emailData =>
    match transportError with
    | none => .ok emailData
    | some e => .error e

/-! ### Persistence and overlapping ticks -/

/-- A Mongoose `document.save()` against the `EmailQueue` collection: the
document overwrites the stored one with the same `_id`, unconditionally —
there is no check that the stored document is still in any expected prior
state, and the write never fails on a state mismatch. -/
def saveJob (j : EmailJob) (db : List EmailJob) : List EmailJob :=
  db.map (fun x => if x.id == j.id then j else x)

/-- Whether `processEmailJob` reaches the `emailService.sendEmail` call for a
job: the transport is invoked exactly when `shouldSkipEmail` (evaluated on the
job already marked processing) does not skip it. -/
def transportInvoked (env : ProcEnv) (emailJob : EmailJob) : Bool :=
  let j := { emailJob with
               status := .processing
               attempts := emailJob.attempts + 1
               lastAttempt := some env.now }
  !(shouldSkipEmail j env.preferences env.now env.serverOffset)

/-- One `processQueue()` tick of a processor instance whose in-process
`isProcessing` flag currently holds `flag`: a tick that finds the flag set
returns immediately (emailQueueProcessor.js lines 43-45); otherwise it selects
a batch and processes each job, saving the result.  The second component
counts the transport invocations the tick performs. -/
def processQueueTick (env : ProcEnv) (flag : Bool) (db : List EmailJob) :
    List EmailJob × Nat :=
  if flag then
    (db, 0)
  else
    let batch := selectBatch env.now db
    (batch.foldl (fun acc j => saveJob (processEmailJob env j) acc) db,
     (batch.filter (transportInvoked env)).length)

/-- Two processor instances (separate processes, hence separate `isProcessing`
flags, both clear) whose ticks interleave so that both `EmailQueue.find`
snapshots complete before either instance saves: each instance processes the
batch it selected from the same initial queue.  Counts the total transport
invocations. -/
def twoInstanceRaceSends (envA envB : ProcEnv) (db : List EmailJob) : Nat :=
  ((selectBatch envA.now db).filter (transportInvoked envA)).length
    + ((selectBatch envB.now db).filter (transportInvoked envB)).length

/-! ### Statement-side definitions -/

/-- The quiet-hours classification exactly as claim C9 words it (a refinement
comparison definition following the spec, not the code): the current hour of
`now` is computed in `profile.quietHours.timezone`, and membership in the
window — wrap-around `hour >= start OR hour <= end` when `startTime > endTime`,
`start <= hour <= end` otherwise — causes a skip. -/
def specQuietHoursSkip (prefs : NotificationPreferences) (nowMs : Nat) : Bool :=
  if prefs.quietHours.enabled then
    quietHourMember (parseHour prefs.quietHours.startTime)
      (parseHour prefs.quietHours.endTime)
      ((nowMs / 3600000 + prefs.quietHours.timezone) % 24)
  else
    false

/-- The delivery-job invariant of the data model: bounded attempts; `sent`
carries a `sentAt` and no `failureReason`; `failed` has exhausted the attempt
budget. -/
def jobInv (j : EmailJob) : Prop :=
  j.attempts ≤ retryAttempts ∧
  (j.status = .sent → j.sentAt ≠ none ∧ j.failureReason = none) ∧
  (j.status = .failed → j.attempts = retryAttempts)

/-- Strengthening of `jobInv` closed under the queue operations: a `pending`
job carries no `failureReason` (needed so that a later `sent` state is
reason-free). -/
def jobInvStrong (j : EmailJob) : Prop :=
  jobInv j ∧ (j.status = .pending → j.failureReason = none)

/-! ### Concrete instances used in counterexamples and witnesses -/

/-- A preferences document with quiet hours 22:00-08:00 enabled and every
email preference left at its default (opted in). -/
def exQuietPrefs : NotificationPreferences :=
  { email := defaultEmailPrefs
    quietHours :=
      { enabled := true, startTime := "22:00", endTime := "08:00", timezone := 0 } }

/-- A job-alert queue document fresh from `EmailQueue.create`. -/
def exJob : EmailJob :=
  mkJob 1 7 .job_alert "New jobs" "<p>jobs</p>" .medium 0 0

/-- An evaluation at 23:00 server time (inside the 22:00-08:00 window) of a
recipient with `exQuietPrefs`; the transport would succeed. -/
def exQuietEnv : ProcEnv :=
  { now := 23 * 3600000, serverOffset := 0
    preferences := some exQuietPrefs, sendError := none }

/-- A preferences document whose email channel is globally disabled. -/
def exDisabledPrefs : NotificationPreferences :=
  { email := { defaultEmailPrefs with enabled := false }
    quietHours := defaultQuietHours }

def exDisabledEnv : ProcEnv :=
  { now := 1000, serverOffset := 0
    preferences := some exDisabledPrefs, sendError := none }

/-- An environment in which nothing is skipped and the transport succeeds. -/
def exOkEnv : ProcEnv :=
  { now := 1000, serverOffset := 0
    preferences := some defaultNotificationPreferences, sendError := none }

/-- An environment in which nothing is skipped and the transport throws. -/
def exFailEnv : ProcEnv :=
  { now := 1000, serverOffset := 0
    preferences := some defaultNotificationPreferences
    sendError := some "SMTP connection refused" }

/-- Three due jobs, one per priority, with equal `createdAt`. -/
def exHighJob : EmailJob :=
  mkJob 1 7 .password_reset "Reset" "<p>r</p>" .high 0 0

def exMediumJob : EmailJob :=
  mkJob 2 7 .job_alert "Jobs" "<p>j</p>" .medium 0 0

def exLowJob : EmailJob :=
  mkJob 3 7 .daily_digest "Digest" "<p>d</p>" .low 0 0

/-- A stored user document (id 7). -/
def exUserDoc : UserDoc :=
  { id := 7 }

/-- Preferences for the C9 counterexample: quiet hours 10:00-12:00 in a
timezone 8 hours ahead of the server clock. -/
def exTzPrefs : NotificationPreferences :=
  { email := defaultEmailPrefs
    quietHours :=
      { enabled := true, startTime := "10:00", endTime := "12:00", timezone := 8 } }

/-- 03:00 server time, which is 11:00 in the profile timezone of `exTzPrefs`. -/
def exTzNow : Nat := 3 * 3600000

/-- `sendEmail` arguments with a template, as `sendTransactionalEmail` builds
them. -/
def exTemplateArgs : SendEmailArgs :=
  { toAddr := "user@example.com", subject := "Welcome to JobPortal!"
    template := some "welcome", html := none, text := none, templateId := none }

/-! ### Helper lemmas -/

/-- `shouldSkipEmail` reads only the `emailType` of the job, so the
mark-as-processing update in `processEmailJob` does not change its verdict. -/
lemma shouldSkipEmail_update (j : EmailJob) (s : EmailStatus) (a : Nat)
    (l : Option Nat) (p : Option NotificationPreferences) (n o : Nat) :
    shouldSkipEmail { j with status := s, attempts := a, lastAttempt := l } p n o
      = shouldSkipEmail j p n o := by
  cases p <;> rfl

/-- With the email channel enabled and no per-type opt-out, `shouldSkipEmail`
reduces to the quiet-hours membership test on the server-local hour. -/
lemma shouldSkipEmail_quiet (j : EmailJob) (prefs : NotificationPreferences)
    (now off : Nat)
    (hen : prefs.email.enabled = true)
    (hnt : ∀ k, typePreferenceMap j.emailType = some k → prefs.email.get k = true)
    (hq : prefs.quietHours.enabled = true) :
    shouldSkipEmail j (some prefs) now off
      = quietHourMember (parseHour prefs.quietHours.startTime)
          (parseHour prefs.quietHours.endTime) (getHours now off) := by
  unfold shouldSkipEmail
  cases h : typePreferenceMap j.emailType with
  | none => simp [hen, h, hq]
  | some k => simp [hen, h, hnt k h, hq]

/-- A cancelled job is terminal: no queue operation changes it. -/
lemma cancelled_terminal (j : EmailJob) (hc : j.status = .cancelled) :
    ∀ ops : List QueueOp, runOps j ops = j := by
  intro ops
  induction ops with
  | nil => rfl
  | cons op rest ih =>
    have hfix : applyOp j op = j := by
      cases op with
      | tick env => simp [applyOp, dueFilter, hc]
      | adminRetry now => simp [applyOp, retryFailedEmail, hc]
      | adminCancel => simp [applyOp, cancelEmail, hc]
    calc runOps j (op :: rest) = runOps (applyOp j op) rest := rfl
      _ = runOps j rest := by rw [hfix]
      _ = j := by
          cases rest with
          | nil => rfl
          | cons op2 rest2 => exact ih

/-! ### Claims -/

/-- Claim C1 counterexample: a job-alert evaluated at 23:00 server time for a
recipient whose quiet hours 22:00-08:00 are enabled is NOT returned to
`pending` with `attempts` intact, as the claim states; `processEmailJob`
cancels it and keeps the attempt increment. -/
theorem quiet_hours_counterexample :
    quietHourMember (parseHour exQuietPrefs.quietHours.startTime)
        (parseHour exQuietPrefs.quietHours.endTime)
        (getHours exQuietEnv.now exQuietEnv.serverOffset) = true ∧
    exJob.attempts = 0 ∧
    (processEmailJob exQuietEnv exJob).status = .cancelled ∧
    (processEmailJob exQuietEnv exJob).status ≠ .pending ∧
    (processEmailJob exQuietEnv exJob).attempts = 1 ∧
    (processEmailJob exQuietEnv exJob).scheduledFor = exJob.scheduledFor := by
  decide

/-- Claim C1 (amended): a delivery job whose recipient has quiet hours enabled
and whose evaluation falls inside the window is transitioned to `cancelled`
(not back to `pending`) with the generic opt-out `failureReason`; the attempt
increment is kept, and `scheduledFor` is not rescheduled. -/
theorem quiet_hours_cancels_and_charges_attempt (env : ProcEnv) (j : EmailJob)
    (prefs : NotificationPreferences)
    (hp : env.preferences = some prefs)
    (hen : prefs.email.enabled = true)
    (hnt : ∀ k, typePreferenceMap j.emailType = some k → prefs.email.get k = true)
    (hq : prefs.quietHours.enabled = true)
    (hm : quietHourMember (parseHour prefs.quietHours.startTime)
            (parseHour prefs.quietHours.endTime)
            (getHours env.now env.serverOffset) = true) :
    (processEmailJob env j).status = .cancelled ∧
    (processEmailJob env j).attempts = j.attempts + 1 ∧
    (processEmailJob env j).scheduledFor = j.scheduledFor ∧
    (processEmailJob env j).failureReason
      = some "User has opted out of this email type" := by
  have hskip :
      shouldSkipEmail
        { j with status := .processing, attempts := j.attempts + 1
                 lastAttempt := some env.now } env.preferences env.now env.serverOffset
        = true := by
    rw [shouldSkipEmail_update, hp, shouldSkipEmail_quiet j prefs _ _ hen hnt hq, hm]
  simp [processEmailJob, hskip]

/-- Claim C1 witness. -/
theorem quiet_hours_cancels_and_charges_attempt_witness :
    (processEmailJob exQuietEnv exJob).status = .cancelled ∧
    (processEmailJob exQuietEnv exJob).attempts = exJob.attempts + 1 ∧
    (processEmailJob exQuietEnv exJob).scheduledFor = exJob.scheduledFor ∧
    (processEmailJob exQuietEnv exJob).failureReason
      = some "User has opted out of this email type" :=
  quiet_hours_cancels_and_charges_attempt exQuietEnv exJob exQuietPrefs
    (by decide) (by decide) (by decide) (by decide) (by decide)

/-- Claim C3: the batch selection predicate and limit are as specified, but
the processing order is NOT high-medium-low.  `priority` is a string field, so
the descending sort key compares the enum values bytewise, and one tick over
three due jobs of equal age processes them medium, low, high — the low-priority
daily digest is processed before the high-priority password reset. -/
theorem priority_order_bug :
    dueFilter 5 exHighJob = true ∧
    dueFilter 5 exMediumJob = true ∧
    dueFilter 5 exLowJob = true ∧
    selectBatch 5 [exHighJob, exMediumJob, exLowJob]
      = [exMediumJob, exLowJob, exHighJob] ∧
    exHighJob.priority = .high ∧ exMediumJob.priority = .medium ∧
    exLowJob.priority = .low ∧
    exHighJob.createdAt = exLowJob.createdAt := by
  decide

/-- Claim C4 counterexample: invoking the daily Digest Generator twice over a
stored user leaves zero daily-digest jobs for that user, not exactly one — the
user query matches no stored user document, so no digest job is ever created. -/
theorem digest_idempotency_counterexample :
    countDailyDigests exUserDoc.id
        (generateDailyDigests 10 "<p>d</p>" [exUserDoc]
          (generateDailyDigests 5 "<p>d</p>" [exUserDoc] [])) = 0 ∧
    (0 : Nat) ≠ 1 := by
  decide

/-- Claim C4 (amended): the Digest Generator creates no digest job at all —
its user query filters the `users` collection on
`notificationPreferences.preferences.email.frequency`, a path no stored User
document carries, so every invocation returns no users and leaves the queue
unchanged; a second invocation within the same period therefore creates no
duplicate, but only vacuously, since not even the first invocation creates a
digest job for any user. -/
theorem digest_runs_create_no_jobs (now : Nat) (html : String)
    (users : List UserDoc) (db : List EmailJob) :
    generateDailyDigests now html users db = db ∧
    ∀ (uid now2 : Nat) (html2 : String) (users2 : List UserDoc),
      countDailyDigests uid
          (generateDailyDigests now2 html2 users2
            (generateDailyDigests now html users db))
        = countDailyDigests uid db := by
  have hnil : ∀ us : List UserDoc, us.filter dailyDigestUserFilter = [] := by
    intro us
    induction us with
    | nil => rfl
    | cons u rest ih =>
      simp [List.filter_cons, dailyDigestUserFilter, userNotificationFrequency, ih]
  have hgen : ∀ (n : Nat) (h : String) (us : List UserDoc) (d : List EmailJob),
      generateDailyDigests n h us d = d := by
    intro n h us d
    unfold generateDailyDigests
    rw [hnil]
    rfl
  refine ⟨hgen now html users db, ?_⟩
  intro uid now2 html2 users2
  rw [hgen, hgen]

/-- Claim C9 counterexample: at 03:00 server time the profile timezone (8
hours ahead) reads 11:00, inside the enabled 10:00-12:00 window; the claimed
classification (hour taken in `profile.quietHours.timezone`) skips, but
`shouldSkipEmail` — which takes the hour from the server clock — does not. -/
theorem quiet_hours_timezone_counterexample :
    specQuietHoursSkip exTzPrefs exTzNow = true ∧
    shouldSkipEmail exJob (some exTzPrefs) exTzNow 0 = false := by
  decide

/-- Claim C9 (amended): when quiet hours are enabled (and no opt-out applies),
the Eligibility Filter classifies using the current hour of the SERVER-LOCAL
clock — `profile.quietHours.timezone` is never read — with membership
`hour >= start OR hour <= end` when `startTime > endTime` and
`start <= hour <= end` otherwise; membership makes `shouldSkipEmail` skip. -/
theorem quiet_hours_uses_server_clock (j : EmailJob)
    (prefs : NotificationPreferences) (now off : Nat)
    (hen : prefs.email.enabled = true)
    (hnt : ∀ k, typePreferenceMap j.emailType = some k → prefs.email.get k = true)
    (hq : prefs.quietHours.enabled = true) :
    shouldSkipEmail j (some prefs) now off
      = quietHourMember (parseHour prefs.quietHours.startTime)
          (parseHour prefs.quietHours.endTime) (getHours now off) :=
  shouldSkipEmail_quiet j prefs now off hen hnt hq

/-- Claim C9 witness. -/
theorem quiet_hours_uses_server_clock_witness :
    shouldSkipEmail exJob (some exTzPrefs) exTzNow 0
      = quietHourMember (parseHour exTzPrefs.quietHours.startTime)
          (parseHour exTzPrefs.quietHours.endTime) (getHours exTzNow 0) :=
  quiet_hours_uses_server_clock exJob exTzPrefs exTzNow 0
    (by decide) (by decide) (by decide)

/-- Claim C10: a job whose recipient has no NotificationPreferences document
is cancelled by `processEmailJob` (`shouldSkipEmail` returns true on a null
preferences document), even though a preferences document built from the
schema defaults would opt the recipient in (`shouldSkipEmail` is false on
`defaultNotificationPreferences` at any time). -/
theorem missing_preferences_cancels (env : ProcEnv) (j : EmailJob)
    (hp : env.preferences = none) :
    (processEmailJob env j).status = .cancelled ∧
    (processEmailJob env j).failureReason
      = some "User has opted out of this email type" ∧
    ∀ now off : Nat,
      shouldSkipEmail j (some defaultNotificationPreferences) now off = false := by
  refine ⟨?_, ?_, ?_⟩
  · simp [processEmailJob, hp, shouldSkipEmail]
  · simp [processEmailJob, hp, shouldSkipEmail]
  · intro now off
    cases h : typePreferenceMap j.emailType with
    | none =>
      simp [shouldSkipEmail, h, defaultNotificationPreferences,
        defaultEmailPrefs, defaultQuietHours]
    | some k =>
      cases k <;>
        simp [shouldSkipEmail, h, defaultNotificationPreferences,
          defaultEmailPrefs, defaultQuietHours, EmailPrefs.get]

/-- Claim C10 witness. -/
theorem missing_preferences_cancels_witness :
    (processEmailJob { exOkEnv with preferences := none } exJob).status
      = .cancelled ∧
    (processEmailJob { exOkEnv with preferences := none } exJob).failureReason
      = some "User has opted out of this email type" ∧
    ∀ now off : Nat,
      shouldSkipEmail exJob (some defaultNotificationPreferences) now off = false :=
  missing_preferences_cancels { exOkEnv with preferences := none } exJob rfl

/-- Claim C5 counterexample: two racing ticks (from two processor instances,
each with its own clear `isProcessing` flag) whose selection snapshots both
complete first each invoke the transport on the same pending job — two
invocations, not one; and the status write of a job is NOT a conditional update:
saving a stale copy over a document another tick already moved to `processing`
succeeds and overwrites it instead of failing. -/
theorem no_double_send_counterexample :
    twoInstanceRaceSends exOkEnv exOkEnv [exHighJob] = 2 ∧
    (2 : Nat) ≠ 1 ∧
    saveJob exHighJob [{ exHighJob with status := .processing, attempts := 1 }]
      = [exHighJob] := by
  decide

/-- Claim C5 (amended): within a single processor instance the `isProcessing`
flag makes an overlapping tick a no-op (no selection, no transport call, queue
unchanged), so a tick racing a still-running tick of the same instance adds no
transport invocation; a non-busy tick over one due, non-skipped job invokes
the transport exactly once.  The status write itself is an unconditional
overwrite, so no cross-instance conditional-update guard exists. -/
theorem single_flight_tick_guard (env : ProcEnv) (j : EmailJob)
    (hdue : dueFilter env.now j = true)
    (hsend : transportInvoked env j = true) :
    (∀ db : List EmailJob, processQueueTick env true db = (db, 0)) ∧
    (processQueueTick env false [j]).2 = 1 := by
  constructor
  · intro db
    simp [processQueueTick]
  · simp [processQueueTick, selectBatch, hdue, sortJobs, orderedInsertB,
      batchSize, hsend]

/-- Claim C5 witness. -/
theorem single_flight_tick_guard_witness :
    (∀ db : List EmailJob, processQueueTick exOkEnv true db = (db, 0)) ∧
    (processQueueTick exOkEnv false [exHighJob]).2 = 1 :=
  single_flight_tick_guard exOkEnv exHighJob (by decide) (by decide)

/-- Claim C6: when the transport call throws for a job that passed the
eligibility check, `processEmailJob` marks the job `failed` with the error
message as `failureReason` exactly when the incremented attempt count has
reached `retryAttempts` (3); below that it returns the job to `pending`
rescheduled `retryDelay` = 5 minutes after `now`. -/
theorem transport_failure_retry_policy (env : ProcEnv) (j : EmailJob)
    (msg : String)
    (hskip : shouldSkipEmail j env.preferences env.now env.serverOffset = false)
    (herr : env.sendError = some msg) :
    ((processEmailJob env j).status = .failed ↔ retryAttempts ≤ j.attempts + 1) ∧
    (retryAttempts ≤ j.attempts + 1 →
      (processEmailJob env j).status = .failed ∧
      (processEmailJob env j).failureReason = some msg) ∧
    (j.attempts + 1 < retryAttempts →
      (processEmailJob env j).status = .pending ∧
      (processEmailJob env j).scheduledFor = env.now + retryDelay) ∧
    retryDelay = 5 * 60 * 1000 := by
  have hs :
      shouldSkipEmail
        { j with status := .processing, attempts := j.attempts + 1
                 lastAttempt := some env.now } env.preferences env.now env.serverOffset
        = false := by
    rw [shouldSkipEmail_update]
    exact hskip
  refine ⟨?_, ?_, ?_, rfl⟩ <;>
    simp only [processEmailJob, hs, herr, Bool.false_eq_true, if_false] <;>
    split_ifs with h <;>
    simp_all

/-- Claim C6 witness (at `exFailEnv`, on a job with two prior attempts and on
a fresh job). -/
theorem transport_failure_retry_policy_witness :
    (((processEmailJob exFailEnv { exJob with attempts := 2 }).status = .failed
        ↔ retryAttempts ≤ { exJob with attempts := 2 }.attempts + 1) ∧
      (retryAttempts ≤ { exJob with attempts := 2 }.attempts + 1 →
        (processEmailJob exFailEnv { exJob with attempts := 2 }).status = .failed ∧
        (processEmailJob exFailEnv { exJob with attempts := 2 }).failureReason
          = some "SMTP connection refused") ∧
      ({ exJob with attempts := 2 }.attempts + 1 < retryAttempts →
        (processEmailJob exFailEnv { exJob with attempts := 2 }).status = .pending ∧
        (processEmailJob exFailEnv { exJob with attempts := 2 }).scheduledFor
          = exFailEnv.now + retryDelay) ∧
      retryDelay = 5 * 60 * 1000) ∧
    ((processEmailJob exFailEnv exJob).status = .failed
        ↔ retryAttempts ≤ exJob.attempts + 1) :=
  ⟨transport_failure_retry_policy exFailEnv { exJob with attempts := 2 }
      "SMTP connection refused" (by decide) rfl,
    (transport_failure_retry_policy exFailEnv exJob
      "SMTP connection refused" (by decide) rfl).1⟩

/-- Claim C8 counterexample: for a recipient whose email channel is globally
disabled the job is cancelled, but the recorded reason is the single fixed
string `User has opted out of this email type` — not "channel disabled" (nor
"category opted out"); `shouldSkipEmail` returns only a boolean and no
per-cause reason exists anywhere. -/
theorem optout_reason_counterexample :
    exDisabledPrefs.email.enabled = false ∧
    (processEmailJob exDisabledEnv exJob).status = .cancelled ∧
    (processEmailJob exDisabledEnv exJob).failureReason
      = some "User has opted out of this email type" ∧
    (processEmailJob exDisabledEnv exJob).failureReason
      ≠ some "channel disabled" ∧
    (processEmailJob exDisabledEnv exJob).failureReason
      ≠ some "category opted out" := by
  decide

/-- Claim C8 (amended): a job whose recipient has the email channel disabled, or
whose type maps to a preference flag that is false, is transitioned to
`cancelled` with the one fixed reason string (the filter returns only a
boolean, so both causes record `User has opted out of this email type`); the
cancelled state is terminal — no subsequent queue operation changes the job. -/
theorem optout_cancels_with_generic_reason (env : ProcEnv) (j : EmailJob)
    (prefs : NotificationPreferences)
    (hp : env.preferences = some prefs)
    (hopt : prefs.email.enabled = false ∨
      ∃ k, typePreferenceMap j.emailType = some k ∧ prefs.email.get k = false) :
    (processEmailJob env j).status = .cancelled ∧
    (processEmailJob env j).failureReason
      = some "User has opted out of this email type" ∧
    ∀ ops : List QueueOp,
      runOps (processEmailJob env j) ops = processEmailJob env j := by
  have hskip0 : shouldSkipEmail j (some prefs) env.now env.serverOffset = true := by
    unfold shouldSkipEmail
    rcases hopt with hdis | ⟨k, hk, hv⟩
    · simp [hdis]
    · by_cases hen : prefs.email.enabled = true
      · simp [hen, hk, hv]
      · have hen2 : prefs.email.enabled = false := by
          cases hb : prefs.email.enabled
          · rfl
          · exact absurd hb hen
        simp [hen2]
  have hskip :
      shouldSkipEmail
        { j with status := .processing, attempts := j.attempts + 1
                 lastAttempt := some env.now } env.preferences env.now env.serverOffset
        = true := by
    rw [shouldSkipEmail_update, hp]
    exact hskip0
  have hres : (processEmailJob env j).status = .cancelled ∧
      (processEmailJob env j).failureReason
        = some "User has opted out of this email type" := by
    constructor <;> simp [processEmailJob, hskip]
  exact ⟨hres.1, hres.2, cancelled_terminal _ hres.1⟩

/-- Claim C8 witness. -/
theorem optout_cancels_with_generic_reason_witness :
    (processEmailJob exDisabledEnv exJob).status = .cancelled ∧
    (processEmailJob exDisabledEnv exJob).failureReason
      = some "User has opted out of this email type" ∧
    ∀ ops : List QueueOp,
      runOps (processEmailJob exDisabledEnv exJob) ops
        = processEmailJob exDisabledEnv exJob :=
  optout_cancels_with_generic_reason exDisabledEnv exJob exDisabledPrefs rfl
    (Or.inl (by decide))

/-- Claim C7: when template compilation throws inside `sendEmail` (for a call
carrying a template and a non-empty recipient and subject), the attempt is not
aborted: validation passes, the transport is invoked with the fallback
subject/body — the original subject, a non-empty fallback HTML body and a
non-empty fallback text body — the render failure surfaces as no error, and a
job whose send step succeeds this way still transitions to `sent`. -/
theorem render_failure_fallback (args : SendEmailArgs) (t : String)
    (ht : args.template = some t) (hto : args.toAddr ≠ "") (hsub : args.subject ≠ "") :
    buildEmailData none args
      = .ok { toAddr := args.toAddr, subject := args.subject
              html := some ("<h1>" ++ args.subject
                              ++ "</h1><p>Email content would be here.</p>")
              text := some (args.subject ++ " - Email content would be here.") } ∧
    sendEmail none none args = buildEmailData none args ∧
    args.subject ≠ "" ∧
    ("<h1>" ++ args.subject ++ "</h1><p>Email content would be here.</p>") ≠ "" ∧
    (args.subject ++ " - Email content would be here.") ≠ "" ∧
    ∀ (env : ProcEnv) (j : EmailJob),
      env.sendError = none →
      shouldSkipEmail j env.preferences env.now env.serverOffset = false →
      (processEmailJob env j).status = .sent := by
  have hbuild : buildEmailData none args
      = .ok { toAddr := args.toAddr, subject := args.subject
              html := some ("<h1>" ++ args.subject
                              ++ "</h1><p>Email content would be here.</p>")
              text := some (args.subject ++ " - Email content would be here.") } := by
    simp [buildEmailData, hto, ht]
  refine ⟨hbuild, ?_, hsub, ?_, ?_, ?_⟩
  · rw [sendEmail, hbuild]
  · intro h
    have hlen := congrArg String.length h
    simp [String.length_append] at hlen
    exact absurd hlen.1.1 (by decide)
  · intro h
    have hlen := congrArg String.length h
    simp [String.length_append] at hlen
    exact absurd hlen.2 (by decide)
  · intro env j henv hsk
    have hs :
        shouldSkipEmail
          { j with status := .processing, attempts := j.attempts + 1
                   lastAttempt := some env.now }
          env.preferences env.now env.serverOffset = false := by
      rw [shouldSkipEmail_update]
      exact hsk
    simp [processEmailJob, hs, henv]

/-- Claim C7 witness. -/
theorem render_failure_fallback_witness :
    buildEmailData none exTemplateArgs
      = .ok { toAddr := exTemplateArgs.toAddr, subject := exTemplateArgs.subject
              html := some ("<h1>" ++ exTemplateArgs.subject
                              ++ "</h1><p>Email content would be here.</p>")
              text := some (exTemplateArgs.subject
                              ++ " - Email content would be here.") } ∧
    sendEmail none none exTemplateArgs = buildEmailData none exTemplateArgs ∧
    exTemplateArgs.subject ≠ "" ∧
    ("<h1>" ++ exTemplateArgs.subject
        ++ "</h1><p>Email content would be here.</p>") ≠ "" ∧
    (exTemplateArgs.subject ++ " - Email content would be here.") ≠ "" ∧
    ∀ (env : ProcEnv) (j : EmailJob),
      env.sendError = none →
      shouldSkipEmail j env.preferences env.now env.serverOffset = false →
      (processEmailJob env j).status = .sent :=
  render_failure_fallback exTemplateArgs "welcome" rfl (by decide) (by decide)

/-- One queue operation preserves the strengthened job invariant. -/
lemma applyOp_preserves (j : EmailJob) (op : QueueOp) (h : jobInvStrong j) :
    jobInvStrong (applyOp j op) := by
  obtain ⟨⟨ha, hsent, hfail⟩, hpend⟩ := h
  cases op with
  | tick env =>
    by_cases hd : dueFilter env.now j = true
    · have hparts : j.status = .pending ∧ j.scheduledFor ≤ env.now
          ∧ j.attempts < retryAttempts := by
        simpa [dueFilter, Bool.and_eq_true, and_assoc] using hd
      obtain ⟨hstat, hsched, hatt⟩ := hparts
      have hreason : j.failureReason = none := hpend hstat
      have happly : applyOp j (.tick env) = processEmailJob env j := by
        simp [applyOp, hd]
      rw [happly]
      by_cases hsk :
          shouldSkipEmail
            { j with status := .processing, attempts := j.attempts + 1
                     lastAttempt := some env.now }
            env.preferences env.now env.serverOffset = true
      · have hres : processEmailJob env j
            = { j with status := .cancelled, attempts := j.attempts + 1
                       lastAttempt := some env.now
                       failureReason := some "User has opted out of this email type" } := by
          simp [processEmailJob, hsk]
        rw [hres]
        refine ⟨⟨?_, ?_, ?_⟩, ?_⟩ <;> simp <;> omega
      · have hsk2 :
            shouldSkipEmail
              { j with status := .processing, attempts := j.attempts + 1
                       lastAttempt := some env.now }
              env.preferences env.now env.serverOffset = false := by
          cases hb :
              shouldSkipEmail
                { j with status := .processing, attempts := j.attempts + 1
                         lastAttempt := some env.now }
                env.preferences env.now env.serverOffset
          · rfl
          · exact absurd hb hsk
        cases hse : env.sendError with
        | none =>
          have hres : processEmailJob env j
              = { j with status := .sent, attempts := j.attempts + 1
                         lastAttempt := some env.now, sentAt := some env.now } := by
            simp [processEmailJob, hsk2, hse]
          rw [hres]
          refine ⟨⟨?_, ?_, ?_⟩, ?_⟩ <;> simp [hreason] <;> omega
        | some msg =>
          by_cases hge : retryAttempts ≤ j.attempts + 1
          · have hres : processEmailJob env j
                = { j with status := .failed, attempts := j.attempts + 1
                           lastAttempt := some env.now, failureReason := some msg } := by
              simp [processEmailJob, hsk2, hse, hge]
            rw [hres]
            refine ⟨⟨?_, ?_, ?_⟩, ?_⟩ <;> simp <;> omega
          · have hres : processEmailJob env j
                = { j with status := .pending, attempts := j.attempts + 1
                           lastAttempt := some env.now
                           scheduledFor := env.now + retryDelay } := by
              simp [processEmailJob, hsk2, hse, hge]
            rw [hres]
            refine ⟨⟨?_, ?_, ?_⟩, ?_⟩ <;> simp [hreason] <;> omega
    · have happly : applyOp j (.tick env) = j := by
        simp [applyOp, hd]
      rw [happly]
      exact ⟨⟨ha, hsent, hfail⟩, hpend⟩
  | adminRetry now =>
    show jobInvStrong (retryFailedEmail now j)
    unfold retryFailedEmail
    split_ifs with hf
    · exact ⟨⟨ha, hsent, hfail⟩, hpend⟩
    · refine ⟨⟨?_, ?_, ?_⟩, ?_⟩ <;> simp
  | adminCancel =>
    show jobInvStrong (cancelEmail j)
    unfold cancelEmail
    split_ifs with hc
    · exact ⟨⟨ha, by simp, by simp⟩, by simp⟩
    · exact ⟨⟨ha, hsent, hfail⟩, hpend⟩

/-- Any sequence of queue operations preserves the strengthened invariant. -/
lemma runOps_preserves (ops : List QueueOp) (j : EmailJob)
    (h : jobInvStrong j) : jobInvStrong (runOps j ops) := by
  induction ops generalizing j with
  | nil => exact h
  | cons op rest ih => exact ih (applyOp j op) (applyOp_preserves j op h)

/-- Claim C2: every delivery job created by `EmailQueue.create`, after any
sequence of queue-processor ticks, admin retries and admin cancels, satisfies
the data-model invariant: `attempts <= retryAttempts` (which is 3);
`status = sent` implies `sentAt` is set and `failureReason` unset; and
`status = failed` implies `attempts = retryAttempts`. -/
theorem delivery_job_invariants (id recipient : Nat) (t : EmailType)
    (subject html : String) (p : EmailPriority) (sf ca : Nat)
    (ops : List QueueOp) :
    jobInv (runOps (mkJob id recipient t subject html p sf ca) ops) ∧
    retryAttempts = 3 := by
  refine ⟨(runOps_preserves ops _ ?_).1, rfl⟩
  refine ⟨⟨?_, ?_, ?_⟩, ?_⟩ <;> simp [mkJob, jobInv, retryAttempts]

end JobPortal
